import Mathlib

/-!
# Verification of the `nbd-netlink` connect-request encoder/decoder

Shallow embedding of `src/lib.rs` of the `nbd-netlink` crate: the numeric
protocol constants declared by the crate (`impl_var!` enumerations and the
flag bit masks), the `NBDConnect` builder with its fluent setters, and the
pure content of `NBDConnect::connect`: the generic-netlink request message it
assembles and the decoding of the single reply into a device index.

The netlink socket itself is an OS resource; its effect is modelled at the
call boundary: `connect` receives the reply (or its absence) that the
`recv()` call on the handle's socket would produce, exactly one `Option`al
message, mirroring the single blocking `recv` in the source. Machine
integers (`u64`, `u32`, `i32`) are modelled as `Nat`/`Int`; the bitwise
operations used by the crate (`|=` with a power of two, `&=` with the
complement of a power of two) never overflow, and the complement is taken
explicitly at 64-bit width.
-/

namespace NbdNetlink

/-! ## Protocol constants (from the `impl_var!` enumerations in `src/lib.rs`) -/

/-! Command codes of the `NbdCmd` enumeration. -/
namespace NbdCmd

def Unspec : Nat := 0

def Connect : Nat := 1

def Disconnect : Nat := 2

def Reconfigure : Nat := 3

def LinkDead : Nat := 4

def Status : Nat := 5

end NbdCmd

/-! Attribute type codes of the `NbdAttr` enumeration. -/
namespace NbdAttr

def Unspec : Nat := 0

def Index : Nat := 1

def SizeBytes : Nat := 2

def BlockSizeBytes : Nat := 3

def Timeout : Nat := 4

def ServerFlags : Nat := 5

def ClientFlags : Nat := 6

def Sockets : Nat := 7

def DeadConnTimeout : Nat := 8

def DeviceList : Nat := 9

end NbdAttr

/-! Attribute type codes of the `NbdSockItem` enumeration. -/
namespace NbdSockItem

def Unspec : Nat := 0

def Item : Nat := 1

end NbdSockItem

/-! Attribute type codes of the `NbdSock` enumeration. -/
namespace NbdSock

def Unspec : Nat := 0

def Fd : Nat := 1

end NbdSock

/-- Server-flag bit `1 << 0`: the flags-valid marker. -/
def HAS_FLAGS : Nat := 1 <<< 0

/-- Server-flag bit `1 << 1`: read-only device. -/
def READ_ONLY : Nat := 1 <<< 1

/-- Server-flag bit `1 << 8`: multiple concurrent connections allowed. -/
def CAN_MULTI_CONN : Nat := 1 <<< 8

/-- Client-flag bit `1 << 1`: disconnect when the device is closed. -/
def NBD_CFLAG_DISCONNECT_ON_CLOSE : Nat := 1 <<< 1

/-- Netlink header flag `NLM_F_REQUEST` (value 1), neli's `NlmF::Request`. -/
def NlmF.Request : Nat := 1

/-- Netlink header flag `NLM_F_ACK` (value 4), neli's `NlmF::Ack`:
acknowledgement requested. -/
def NlmF.Ack : Nat := 4

/-- Bitmask built by neli's `NlmFFlags::new` from a list of flags. -/
def nlmFFlags (flags : List Nat) : Nat := flags.foldl (· ||| ·) 0

/-- The modulus of `u64` arithmetic. -/
def U64_LIMIT : Nat := 2 ^ 64

/-- Bitwise complement at `u64` width, the Rust `!mask` on a `u64`. -/
def not64 (x : Nat) : Nat := (U64_LIMIT - 1) ^^^ x

/-! ## The request message, structurally

`Nlattr` payloads in the source are serialized scalars (`u64` device
parameters, `i32` raw file descriptors) or nested attribute lists; the
request is modelled at that structural level. -/

/-- A netlink attribute of the request: a typed `u64` scalar, a typed `i32`
scalar (a raw file descriptor), or a typed container of nested attributes. -/
inductive NlAttr where
  | u64attr (typ : Nat) (val : Nat) : NlAttr
  | i32attr (typ : Nat) (val : Int) : NlAttr
  | nested (typ : Nat) (children : List NlAttr) : NlAttr

/-- The attribute type code. -/
def NlAttr.typ : NlAttr → Nat
  | .u64attr t _ => t
  | .i32attr t _ => t
  | .nested t _ => t

/-- The children of a container attribute (containers are the only shape it
is applied to in the source, where it appends the child's serialization to
the container's payload). -/
def NlAttr.children : NlAttr → List NlAttr
  | .nested _ cs => cs
  | _ => []

/-- Append one child attribute to a container, neli's
`Nlattr::add_nested_attribute`. -/
def NlAttr.add_nested_attribute : NlAttr → NlAttr → NlAttr
  | .nested t cs, child => .nested t (cs ++ [child])
  | a, _ => a

/-- A generic-netlink message header with its attribute payload, neli's
`Genlmsghdr` as constructed by `Genlmsghdr::new(cmd, version, attrs)`. -/
structure Genlmsghdr where
  cmd : Nat
  version : Nat
  attrs : List NlAttr

/-- The outer netlink message header as constructed by `Nlmsghdr::new(None,
family, flags, None, None, NlPayload::Payload(genl))`: the length, sequence
and pid fields are left to the serializer and carry no information chosen by
this crate, so only the type, the flags and the payload are modelled. -/
structure Nlmsghdr where
  nlType : Nat
  flags : Nat
  payload : Genlmsghdr

/-! ## The reply message, as received

The reply's attributes arrive as raw length-prefixed byte payloads; neli
hands them to the crate as an attribute handle over (type code, payload
bytes) pairs. -/

/-- One top-level attribute of the reply: its type code and its payload
bytes. -/
structure RawAttr where
  typ : Nat
  payload : List Nat
deriving DecidableEq

/-- The generic-netlink payload of the reply. -/
structure GenlReply where
  cmd : Nat
  version : Nat
  attrs : List RawAttr
deriving DecidableEq

/-- A received reply message: the netlink header's family/type code and the
generic-netlink payload. -/
structure Reply where
  nlType : Nat
  genl : GenlReply
deriving DecidableEq

/-- Decode four little-endian bytes as an unsigned 32-bit value (the host
byte order of the platforms the crate compiles on). -/
def decodeU32LE (bytes : List Nat) : Nat :=
  bytes.foldr (fun b acc => b + 256 * acc) 0

/-- Errors surfaced by `connect`, named after the specification's error
taxonomy. `protocolMismatch` is listed so that its absence from every
execution path is statable; the source never produces it. -/
inductive ConnectError where
  | noResponse : ConnectError
  | protocolMismatch : ConnectError
  | malformedResponse : ConnectError
deriving DecidableEq

/-- Modelled from the spec: the typed attribute extraction performed by
`handle.get_attr_payload_as::<u32>(NbdAttr::Index)` lives in the `neli`
dependency, whose source is outside this repository; the spec's contract is
that the index attribute must be present and of the right width to
deserialize as an unsigned 32-bit value, and that either failure is the
`MalformedResponse` error. The lookup of the first attribute with the
`Index` type code mirrors neli's attribute-handle search invoked from
`src/lib.rs`. -/
def get_attr_payload_as_u32 (attrs : List RawAttr) : Except ConnectError Nat :=
  match attrs.find? (fun a => a.typ == NbdAttr.Index) with
  | none => .error .malformedResponse
  | some a =>
    if a.payload.length = 4 then .ok (decodeU32LE a.payload)
    else .error .malformedResponse

/-- Processing of the single `recv()` result in `connect` (lines 206–212 of
`src/lib.rs`): `none` (no message) is the `No response received` error; a
message is parsed for its `Index` attribute with no inspection of the
reply's netlink family/type code. Totality of this function is the model of
freedom from panics. -/
def recvResult (reply? : Option Reply) : Except ConnectError Nat :=
  match reply? with
  | none => .error .noResponse
  | some r => get_attr_payload_as_u32 r.genl.attrs

/-! ## The `NBD` handle and the `NBDConnect` builder -/

/-- The `NBD` handle: the open netlink socket is an OS resource outside the
embedding, so the handle is modelled by the resolved family ID it bundles. -/
structure NBD where
  nbd_family : Nat
deriving DecidableEq

/-- The `NBDConnect` builder state: four `u64` device parameters. -/
structure NBDConnect where
  size_bytes : Nat
  block_size_bytes : Nat
  server_flags : Nat
  client_flags : Nat
deriving DecidableEq

/-- `NBDConnect::new`. -/
def NBDConnect.new : NBDConnect :=
  { size_bytes := 0
    block_size_bytes := 4096
    server_flags := HAS_FLAGS
    client_flags := 0 }

/-- The `u64` range invariant every reachable builder state satisfies. -/
def NBDConnect.Wf (b : NBDConnect) : Prop :=
  b.size_bytes < U64_LIMIT ∧ b.block_size_bytes < U64_LIMIT ∧
    b.server_flags < U64_LIMIT ∧ b.client_flags < U64_LIMIT

/-- `NBDConnect::size_bytes` (the setter; Rust allows the method to share
the field's name). The argument is reduced to `u64` range as Rust's type
does. -/
def NBDConnect.set_size_bytes (b : NBDConnect) (bytes : Nat) : NBDConnect :=
  { b with size_bytes := bytes % U64_LIMIT }

/-- `NBDConnect::block_size`. -/
def NBDConnect.block_size (b : NBDConnect) (bytes : Nat) : NBDConnect :=
  { b with block_size_bytes := bytes % U64_LIMIT }

/-- `NBDConnect::read_only`: set or clear the `READ_ONLY` server-flag bit. -/
def NBDConnect.read_only (b : NBDConnect) (v : Bool) : NBDConnect :=
  if v then { b with server_flags := b.server_flags ||| READ_ONLY }
  else { b with server_flags := b.server_flags &&& not64 READ_ONLY }

/-- `NBDConnect::can_multi_conn`: set or clear the `CAN_MULTI_CONN`
server-flag bit. -/
def NBDConnect.can_multi_conn (b : NBDConnect) (v : Bool) : NBDConnect :=
  if v then { b with server_flags := b.server_flags ||| CAN_MULTI_CONN }
  else { b with server_flags := b.server_flags &&& not64 CAN_MULTI_CONN }

/-- `NBDConnect::disconnect_on_close`: set or clear the
`NBD_CFLAG_DISCONNECT_ON_CLOSE` client-flag bit. -/
def NBDConnect.disconnect_on_close (b : NBDConnect) (v : Bool) : NBDConnect :=
  if v then
    { b with client_flags := b.client_flags ||| NBD_CFLAG_DISCONNECT_ON_CLOSE }
  else
    { b with client_flags := b.client_flags &&& not64 NBD_CFLAG_DISCONNECT_ON_CLOSE }

/-! ## `NBDConnect::connect` -/

/-- One `Item` sub-container of the sockets attribute: `Nlattr::new(None,
true, false, NbdSockItem::Item, attr(NbdSock::Fd, socket.as_raw_fd()))`. -/
def sockItem (fd : Int) : NlAttr :=
  .nested NbdSockItem.Item [.i32attr NbdSock.Fd fd]

/-- The sockets container attribute as built by the `for socket in sockets`
loop: starting from an empty `Sockets` container, one `Item` sub-container
per descriptor is appended in input order. -/
def socketsAttr (fds : List Int) : NlAttr :=
  fds.foldl (fun acc fd => acc.add_nested_attribute (sockItem fd))
    (.nested NbdAttr.Sockets [])

/-- The request message `connect` assembles and transmits (lines 179–205 of
`src/lib.rs`): the five top-level attributes pushed in source order, the
generic-netlink header `Genlmsghdr::new(NbdCmd::Connect, 1, attrs)`, and the
netlink header addressed to the resolved family with
`NlmFFlags::new(&[NlmF::Request])`. -/
def NBDConnect.buildRequest (b : NBDConnect) (family : Nat) (fds : List Int) :
    Nlmsghdr :=
  let sockets_attr := socketsAttr fds
  let attrs : List NlAttr := []
  let attrs := attrs.concat (.u64attr NbdAttr.SizeBytes b.size_bytes)
  let attrs := attrs.concat (.u64attr NbdAttr.BlockSizeBytes b.block_size_bytes)
  let attrs := attrs.concat (.u64attr NbdAttr.ServerFlags b.server_flags)
  let attrs := attrs.concat (.u64attr NbdAttr.ClientFlags b.client_flags)
  let attrs := attrs.concat sockets_attr
  { nlType := family
    flags := nlmFFlags [NlmF.Request]
    payload := { cmd := NbdCmd.Connect, version := 1, attrs := attrs } }

/-- `NBDConnect::connect(&self, nbd: &mut NBD, sockets)`: builds and sends
the request, then decodes the single reply. The builder is taken by shared
reference and the handle's family field is never written, which the
embedding renders by returning both unchanged alongside the transmitted
message and the call's result; `reply?` stands for what the one blocking
`recv()` yields. -/
def NBDConnect.connect (b : NBDConnect) (nbd : NBD) (fds : List Int)
    (reply? : Option Reply) :
    NBDConnect × NBD × Nlmsghdr × Except ConnectError Nat :=
  (b, nbd, b.buildRequest nbd.nbd_family fds, recvResult reply?)

/-- A sequence of fluent configuration calls on the builder. -/
inductive BuilderCall where
  | sizeBytes (n : Nat) : BuilderCall
  | blockSize (n : Nat) : BuilderCall
  | readOnly (v : Bool) : BuilderCall
  | canMultiConn (v : Bool) : BuilderCall
  | disconnectOnClose (v : Bool) : BuilderCall

/-- Apply one configuration call. -/
def applyCall (b : NBDConnect) : BuilderCall → NBDConnect
  | .sizeBytes n => b.set_size_bytes n
  | .blockSize n => b.block_size n
  | .readOnly v => b.read_only v
  | .canMultiConn v => b.can_multi_conn v
  | .disconnectOnClose v => b.disconnect_on_close v

/-! ## Bit-level helper lemmas -/

theorem not64_testBit_self (k : Nat) (hk : k < 64) :
    (not64 (2 ^ k)).testBit k = false := by
  unfold not64 U64_LIMIT
  rw [Nat.testBit_xor, Nat.testBit_two_pow_sub_one, Nat.testBit_two_pow_self]
  simp [hk]

theorem not64_testBit_of_ne (k i : Nat) (hi : i < 64) (hne : i ≠ k) :
    (not64 (2 ^ k)).testBit i = true := by
  unfold not64 U64_LIMIT
  rw [Nat.testBit_xor, Nat.testBit_two_pow_sub_one,
    Nat.testBit_two_pow_of_ne (Ne.symm hne)]
  simp [hi]

theorem not64_testBit_high (k i : Nat) (hk : k < 64) (hi : 64 ≤ i) :
    (not64 (2 ^ k)).testBit i = false := by
  have h1 : (2 ^ k : Nat).testBit i = false :=
    Nat.testBit_two_pow_of_ne (by omega)
  unfold not64 U64_LIMIT
  rw [Nat.testBit_xor, Nat.testBit_two_pow_sub_one, h1]
  simp only [Bool.xor_false, decide_eq_false_iff_not]
  omega

theorem testBit_high_of_lt (s i : Nat) (hs : s < U64_LIMIT) (hi : 64 ≤ i) :
    s.testBit i = false := by
  refine Nat.testBit_eq_false_of_lt (lt_of_lt_of_le hs ?_)
  exact Nat.pow_le_pow_right (by norm_num) hi

theorem setBit_testBit (s k i : Nat) :
    (s ||| 2 ^ k).testBit i = if i = k then true else s.testBit i := by
  rcases eq_or_ne i k with h | h
  · subst h
    simp [Nat.testBit_lor, Nat.testBit_two_pow_self]
  · simp [Nat.testBit_lor, Nat.testBit_two_pow_of_ne (Ne.symm h), h]

theorem clearBit_testBit (s k i : Nat) (hs : s < U64_LIMIT) (hk : k < 64) :
    (s &&& not64 (2 ^ k)).testBit i = if i = k then false else s.testBit i := by
  rcases eq_or_ne i k with h | h
  · subst h
    simp [Nat.testBit_land, not64_testBit_self _ hk]
  · rcases lt_or_ge i 64 with hi | hi
    · simp [Nat.testBit_land, not64_testBit_of_ne _ _ hi h, h]
    · simp [Nat.testBit_land, testBit_high_of_lt s i hs hi, h]

theorem setBit_eq_self (s k : Nat) (h : s.testBit k = true) : s ||| 2 ^ k = s := by
  refine Nat.eq_of_testBit_eq fun i => ?_
  rw [setBit_testBit]
  rcases eq_or_ne i k with rfl | hne
  · simp [h]
  · simp [hne]

theorem clearBit_eq_self (s k : Nat) (hs : s < U64_LIMIT) (hk : k < 64)
    (h : s.testBit k = false) : s &&& not64 (2 ^ k) = s := by
  refine Nat.eq_of_testBit_eq fun i => ?_
  rw [clearBit_testBit s k i hs hk]
  rcases eq_or_ne i k with rfl | hne
  · simp [h]
  · simp [hne]

theorem clearBit_setBit (s k : Nat) (hs : s < U64_LIMIT) (hk : k < 64) :
    (s ||| 2 ^ k) &&& not64 (2 ^ k) = s &&& not64 (2 ^ k) := by
  have hs' : s ||| 2 ^ k < U64_LIMIT := by
    have : (2 ^ k : Nat) < 2 ^ 64 := Nat.pow_lt_pow_right (by norm_num) hk
    exact Nat.or_lt_two_pow hs this
  refine Nat.eq_of_testBit_eq fun i => ?_
  rw [clearBit_testBit _ k i hs' hk, clearBit_testBit _ k i hs hk]
  rcases eq_or_ne i k with rfl | hne
  · simp
  · rw [setBit_testBit]
    simp [hne]

theorem setBit_clearBit (s k : Nat) (hs : s < U64_LIMIT) (hk : k < 64) :
    (s &&& not64 (2 ^ k)) ||| 2 ^ k = s ||| 2 ^ k := by
  have hs' : s &&& not64 (2 ^ k) < U64_LIMIT :=
    lt_of_le_of_lt Nat.and_le_left hs
  refine Nat.eq_of_testBit_eq fun i => ?_
  rw [setBit_testBit, setBit_testBit]
  rcases eq_or_ne i k with rfl | hne
  · simp
  · rw [clearBit_testBit s k i hs hk]
    simp [hne]

/-! ## Helper lemmas about the sockets attribute -/

theorem foldl_add_nested (fds : List Int) (t : Nat) (cs : List NlAttr) :
    fds.foldl (fun (acc : NlAttr) fd => acc.add_nested_attribute (sockItem fd))
        (NlAttr.nested t cs)
      = NlAttr.nested t (cs ++ fds.map sockItem) := by
  induction fds generalizing cs with
  | nil => simp
  | cons fd rest ih =>
    rw [List.foldl_cons,
      show (NlAttr.nested t cs).add_nested_attribute (sockItem fd)
          = NlAttr.nested t (cs ++ [sockItem fd]) from rfl,
      ih]
    simp

theorem socketsAttr_eq (fds : List Int) :
    socketsAttr fds = .nested NbdAttr.Sockets (fds.map sockItem) := by
  simpa [socketsAttr] using foldl_add_nested fds NbdAttr.Sockets []

/-! ## Small rewriting facts about the flag constants -/

theorem HAS_FLAGS_eq : HAS_FLAGS = 2 ^ 0 := by decide

theorem READ_ONLY_eq : READ_ONLY = 2 ^ 1 := by decide

theorem CAN_MULTI_CONN_eq : CAN_MULTI_CONN = 2 ^ 8 := by decide

theorem NBD_CFLAG_DISCONNECT_ON_CLOSE_eq :
    NBD_CFLAG_DISCONNECT_ON_CLOSE = 2 ^ 1 := by decide

theorem update_server_flags_eq (b : NBDConnect) (x : Nat)
    (hx : x = b.server_flags) : { b with server_flags := x } = b := by
  cases b
  subst hx
  rfl

theorem update_client_flags_eq (b : NBDConnect) (x : Nat)
    (hx : x = b.client_flags) : { b with client_flags := x } = b := by
  cases b
  subst hx
  rfl

/-! ## The claims -/

/-- C5: a newly constructed `NBDConnect` builder has exactly the state
`size_bytes = 0`, `block_size_bytes = 4096`, `server_flags = 0b1` (only the
`HAS_FLAGS` bit) and `client_flags = 0`. -/
theorem claim_c5_new_defaults :
    NBDConnect.new.size_bytes = 0 ∧ NBDConnect.new.block_size_bytes = 4096 ∧
      NBDConnect.new.server_flags = 1 ∧
      NBDConnect.new.server_flags = HAS_FLAGS ∧
      NBDConnect.new.client_flags = 0 :=
  ⟨rfl, rfl, rfl, rfl, rfl⟩

/-- C8: `connect` consumes exactly one optional reply, the value of the
single blocking `recv()`; when the socket yields no message, the call fails
with the no-response error. -/
theorem claim_c8_no_response (b : NBDConnect) (nbd : NBD) (fds : List Int) :
    (b.connect nbd fds none).2.2.2 = .error .noResponse := rfl

/-- C9: the transmitted message's top-level attribute list is, in order,
size, block size, server flags, client flags, then the sockets container,
wrapped in a generic-netlink header carrying the connect command (numeric
opcode 1) with version 1. -/
theorem claim_c9_message_layout (b : NBDConnect) (family : Nat)
    (fds : List Int) :
    (b.buildRequest family fds).payload =
      { cmd := NbdCmd.Connect, version := 1,
        attrs := [NlAttr.u64attr NbdAttr.SizeBytes b.size_bytes,
          NlAttr.u64attr NbdAttr.BlockSizeBytes b.block_size_bytes,
          NlAttr.u64attr NbdAttr.ServerFlags b.server_flags,
          NlAttr.u64attr NbdAttr.ClientFlags b.client_flags,
          socketsAttr fds] } ∧
      NbdCmd.Connect = 1 :=
  ⟨rfl, rfl⟩

/-- C10: `connect` takes the builder by shared reference: the builder (and
the handle's resolved family) come back unchanged from a call, and reusing
the returned builder for a second call transmits an identical message. -/
theorem claim_c10_connect_preserves_builder (b : NBDConnect) (nbd : NBD)
    (fds : List Int) (r1 r2 : Option Reply) :
    (b.connect nbd fds r1).1 = b ∧
      (b.connect nbd fds r1).2.1 = nbd ∧
      ((b.connect nbd fds r1).1.connect nbd fds r2).2.2.1 =
        (b.connect nbd fds r1).2.2.1 :=
  ⟨rfl, rfl, rfl⟩

/-- C3: the sockets container attribute is present in the transmitted
message for every input sequence (also the empty one), carries the `Sockets`
type code, and holds exactly one `Item` sub-container per input descriptor,
in input order, each containing exactly one `Fd` attribute with that
descriptor's value. -/
theorem claim_c3_sockets_attribute (b : NBDConnect) (family : Nat)
    (fds : List Int) :
    socketsAttr fds ∈ (b.buildRequest family fds).payload.attrs ∧
      (socketsAttr fds).typ = NbdAttr.Sockets ∧
      (socketsAttr fds).children.length = fds.length ∧
      ∀ k : Nat, (socketsAttr fds).children[k]? =
        (fds[k]?).map fun fd =>
          NlAttr.nested NbdSockItem.Item [NlAttr.i32attr NbdSock.Fd fd] := by
  refine ⟨?_, ?_, ?_, ?_⟩
  · simp [NBDConnect.buildRequest]
  · rw [socketsAttr_eq]
    rfl
  · rw [socketsAttr_eq]
    simp [NlAttr.children]
  · intro k
    rw [socketsAttr_eq]
    simp only [NlAttr.children, List.getElem?_map]
    rfl

/-- C2, counterexample: in the header transmitted for a concrete call (a
fresh builder, resolved family 30, no sockets) the `NLM_F_ACK`
(acknowledgement requested) bit is not set: the flags word is
`NLM_F_REQUEST` alone, so the claim that the acknowledgement flag is set in
addition to the request flag is false. -/
theorem claim_c2_counterexample :
    (NBDConnect.new.connect ⟨30⟩ [] none).2.2.1.flags &&& NlmF.Ack = 0 ∧
      (NBDConnect.new.connect ⟨30⟩ [] none).2.2.1.flags = 1 ∧
      NlmF.Ack = 4 := by
  refine ⟨by decide, by decide, rfl⟩

/-- C2 (amended): the transmitted netlink request header is addressed to the
resolved NBD family ID and has exactly the request flag set; the
acknowledgement-request flag (`NLM_F_ACK`) is not set. -/
theorem claim_c2_request_header (b : NBDConnect) (family : Nat)
    (fds : List Int) :
    (b.buildRequest family fds).nlType = family ∧
      (b.buildRequest family fds).flags = NlmF.Request ∧
      (b.buildRequest family fds).flags &&& NlmF.Ack = 0 := by
  refine ⟨rfl, ?_, ?_⟩
  · show nlmFFlags [NlmF.Request] = NlmF.Request
    decide
  · show nlmFFlags [NlmF.Request] &&& NlmF.Ack = 0
    decide

/-- C1, counterexample: with resolved family 30, a reply whose netlink
header carries family code 31 and a well-formed index attribute of value 3
is decoded successfully by `connect`; no protocol-mismatch failure occurs,
so the claim that such a reply yields `ProtocolMismatch` is false. -/
theorem claim_c1_counterexample :
    (NBDConnect.new.connect ⟨30⟩ []
        (some { nlType := 31,
                genl := { cmd := NbdCmd.Connect, version := 1,
                          attrs := [{ typ := NbdAttr.Index,
                                      payload := [3, 0, 0, 0] }] } })).2.2.2
        = .ok 3 ∧
      (31 : Nat) ≠ 30 := by
  exact ⟨rfl, by decide⟩

/-- C1 (amended): `connect` performs no family-code check on the reply: its
result is never the protocol-mismatch error, and it does not depend on the
reply's netlink family/type code at all — the reply's attributes are parsed
regardless. -/
theorem claim_c1_no_family_check (b : NBDConnect) (nbd : NBD) (fds : List Int)
    (reply? : Option Reply) :
    (b.connect nbd fds reply?).2.2.2 ≠ .error .protocolMismatch ∧
      ∀ (r : Reply) (t : Nat),
        (b.connect nbd fds (some { r with nlType := t })).2.2.2 =
          (b.connect nbd fds (some r)).2.2.2 := by
  constructor
  · show recvResult reply? ≠ .error .protocolMismatch
    cases reply? with
    | none => simp [recvResult]
    | some r =>
      show get_attr_payload_as_u32 r.genl.attrs ≠ .error .protocolMismatch
      unfold get_attr_payload_as_u32
      cases r.genl.attrs.find? (fun a => a.typ == NbdAttr.Index) with
      | none => simp
      | some a =>
        by_cases hlen : a.payload.length = 4 <;> simp [hlen]
  · intro r t
    rfl

/-- Witness for C1 (amended), at a fresh builder, family 30, no sockets and
an absent reply. -/
theorem claim_c1_no_family_check_witness :
    (NBDConnect.new.connect ⟨30⟩ [] none).2.2.2 ≠ .error .protocolMismatch ∧
      ∀ (r : Reply) (t : Nat),
        (NBDConnect.new.connect ⟨30⟩ [] (some { r with nlType := t })).2.2.2 =
          (NBDConnect.new.connect ⟨30⟩ [] (some r)).2.2.2 :=
  claim_c1_no_family_check NBDConnect.new ⟨30⟩ [] none

/-- C7: a reply carrying no attribute that is both `Index`-typed and exactly
four bytes wide — so in particular a reply lacking the index attribute
altogether, or whose index attribute has the wrong width — makes `connect`
fail with the malformed-response error; the decoder is a total function
(never panics) and under this hypothesis returns no index at all. -/
theorem claim_c7_malformed_reply (r : Reply)
    (h : ∀ a ∈ r.genl.attrs, ¬(a.typ = NbdAttr.Index ∧ a.payload.length = 4)) :
    recvResult (some r) = .error .malformedResponse := by
  show get_attr_payload_as_u32 r.genl.attrs = .error .malformedResponse
  unfold get_attr_payload_as_u32
  cases hf : r.genl.attrs.find? (fun a => a.typ == NbdAttr.Index) with
  | none => rfl
  | some a =>
    have hmem : a ∈ r.genl.attrs := List.mem_of_find?_eq_some hf
    have htyp : a.typ = NbdAttr.Index := by
      have := List.find?_some hf
      simpa using this
    have hlen : ¬a.payload.length = 4 := fun hlen => h a hmem ⟨htyp, hlen⟩
    simp [hlen]

/-- Witness for C7: a reply whose only attribute is `Timeout`-typed (no
index attribute present) decodes to the malformed-response error. -/
theorem claim_c7_malformed_reply_witness :
    recvResult
        (some ⟨30, ⟨NbdCmd.Connect, 1, [⟨NbdAttr.Timeout, [0, 0, 0, 0]⟩]⟩⟩)
      = .error .malformedResponse :=
  claim_c7_malformed_reply _ (by decide)

/-- C4: every sequence of fluent configuration calls applied to a fresh
builder leaves the `HAS_FLAGS` marker (bit 0 of `server_flags`) set. -/
theorem claim_c4_has_flags_invariant (calls : List BuilderCall) :
    ((calls.foldl applyCall NBDConnect.new).server_flags).testBit 0 = true := by
  have key : ∀ (l : List BuilderCall) (b : NBDConnect),
      b.server_flags.testBit 0 = true →
      ((l.foldl applyCall b).server_flags).testBit 0 = true := by
    intro l
    induction l with
    | nil => intro b hb; simpa using hb
    | cons c rest ih =>
      intro b hb
      refine ih _ ?_
      cases c with
      | sizeBytes n => exact hb
      | blockSize n => exact hb
      | readOnly v =>
        cases v with
        | true =>
          show (b.server_flags ||| READ_ONLY).testBit 0 = true
          rw [READ_ONLY_eq, setBit_testBit]
          simpa using hb
        | false =>
          show (b.server_flags &&& not64 READ_ONLY).testBit 0 = true
          rw [READ_ONLY_eq, Nat.testBit_land,
            not64_testBit_of_ne 1 0 (by norm_num) (by norm_num), hb]
          rfl
      | canMultiConn v =>
        cases v with
        | true =>
          show (b.server_flags ||| CAN_MULTI_CONN).testBit 0 = true
          rw [CAN_MULTI_CONN_eq, setBit_testBit]
          simpa using hb
        | false =>
          show (b.server_flags &&& not64 CAN_MULTI_CONN).testBit 0 = true
          rw [CAN_MULTI_CONN_eq, Nat.testBit_land,
            not64_testBit_of_ne 8 0 (by norm_num) (by norm_num), hb]
          rfl
      | disconnectOnClose v => cases v <;> exact hb
  exact key calls NBDConnect.new (by decide)

/-- C6: each of the three flag toggles writes exactly its target bit —
`read_only` bit 1 of `server_flags`, `can_multi_conn` bit 8 of
`server_flags`, `disconnect_on_close` bit 1 of `client_flags` — to the value
of its argument, leaves every other bit of both flag words and every other
builder field unchanged, and toggling back restores the original mask
bit-for-bit: applying the toggle with the bit's current value is the
identity, and toggle-then-opposite-toggle equals the single opposite
toggle. -/
theorem claim_c6_toggle_frame (b : NBDConnect) (h : b.Wf) :
    (∀ (v : Bool) (i : Nat), ((b.read_only v).server_flags).testBit i
        = if i = 1 then v else b.server_flags.testBit i) ∧
      (∀ v : Bool, (b.read_only v).size_bytes = b.size_bytes ∧
        (b.read_only v).block_size_bytes = b.block_size_bytes ∧
        (b.read_only v).client_flags = b.client_flags) ∧
      b.read_only (b.server_flags.testBit 1) = b ∧
      (b.read_only true).read_only false = b.read_only false ∧
      (b.read_only false).read_only true = b.read_only true ∧
      (∀ (v : Bool) (i : Nat), ((b.can_multi_conn v).server_flags).testBit i
        = if i = 8 then v else b.server_flags.testBit i) ∧
      (∀ v : Bool, (b.can_multi_conn v).size_bytes = b.size_bytes ∧
        (b.can_multi_conn v).block_size_bytes = b.block_size_bytes ∧
        (b.can_multi_conn v).client_flags = b.client_flags) ∧
      b.can_multi_conn (b.server_flags.testBit 8) = b ∧
      (b.can_multi_conn true).can_multi_conn false = b.can_multi_conn false ∧
      (b.can_multi_conn false).can_multi_conn true = b.can_multi_conn true ∧
      (∀ (v : Bool) (i : Nat),
        ((b.disconnect_on_close v).client_flags).testBit i
          = if i = 1 then v else b.client_flags.testBit i) ∧
      (∀ v : Bool, (b.disconnect_on_close v).size_bytes = b.size_bytes ∧
        (b.disconnect_on_close v).block_size_bytes = b.block_size_bytes ∧
        (b.disconnect_on_close v).server_flags = b.server_flags) ∧
      b.disconnect_on_close (b.client_flags.testBit 1) = b ∧
      (b.disconnect_on_close true).disconnect_on_close false
        = b.disconnect_on_close false ∧
      (b.disconnect_on_close false).disconnect_on_close true
        = b.disconnect_on_close true := by
  obtain ⟨-, -, hs, hc⟩ := h
  refine ⟨?_, ?_, ?_, ?_, ?_, ?_, ?_, ?_, ?_, ?_, ?_, ?_, ?_, ?_, ?_⟩
  · intro v i
    cases v with
    | true =>
      show (b.server_flags ||| READ_ONLY).testBit i = _
      rw [READ_ONLY_eq, setBit_testBit]
    | false =>
      show (b.server_flags &&& not64 READ_ONLY).testBit i = _
      rw [READ_ONLY_eq, clearBit_testBit _ 1 i hs (by norm_num)]
  · intro v
    cases v <;> exact ⟨rfl, rfl, rfl⟩
  · cases hbit : b.server_flags.testBit 1 with
    | false =>
      show { b with server_flags := b.server_flags &&& not64 READ_ONLY } = b
      exact update_server_flags_eq b _
        (by rw [READ_ONLY_eq]; exact clearBit_eq_self _ 1 hs (by norm_num) hbit)
    | true =>
      show { b with server_flags := b.server_flags ||| READ_ONLY } = b
      exact update_server_flags_eq b _
        (by rw [READ_ONLY_eq]; exact setBit_eq_self _ 1 hbit)
  · show { b with server_flags := (b.server_flags ||| READ_ONLY) &&& not64 READ_ONLY }
        = { b with server_flags := b.server_flags &&& not64 READ_ONLY }
    rw [show (b.server_flags ||| READ_ONLY) &&& not64 READ_ONLY
        = b.server_flags &&& not64 READ_ONLY by
      rw [READ_ONLY_eq]; exact clearBit_setBit _ 1 hs (by norm_num)]
  · show { b with server_flags := (b.server_flags &&& not64 READ_ONLY) ||| READ_ONLY }
        = { b with server_flags := b.server_flags ||| READ_ONLY }
    rw [show (b.server_flags &&& not64 READ_ONLY) ||| READ_ONLY
        = b.server_flags ||| READ_ONLY by
      rw [READ_ONLY_eq]; exact setBit_clearBit _ 1 hs (by norm_num)]
  · intro v i
    cases v with
    | true =>
      show (b.server_flags ||| CAN_MULTI_CONN).testBit i = _
      rw [CAN_MULTI_CONN_eq, setBit_testBit]
    | false =>
      show (b.server_flags &&& not64 CAN_MULTI_CONN).testBit i = _
      rw [CAN_MULTI_CONN_eq, clearBit_testBit _ 8 i hs (by norm_num)]
  · intro v
    cases v <;> exact ⟨rfl, rfl, rfl⟩
  · cases hbit : b.server_flags.testBit 8 with
    | false =>
      show { b with server_flags := b.server_flags &&& not64 CAN_MULTI_CONN } = b
      exact update_server_flags_eq b _
        (by rw [CAN_MULTI_CONN_eq]
            exact clearBit_eq_self _ 8 hs (by norm_num) hbit)
    | true =>
      show { b with server_flags := b.server_flags ||| CAN_MULTI_CONN } = b
      exact update_server_flags_eq b _
        (by rw [CAN_MULTI_CONN_eq]; exact setBit_eq_self _ 8 hbit)
  · show { b with server_flags :=
          (b.server_flags ||| CAN_MULTI_CONN) &&& not64 CAN_MULTI_CONN }
        = { b with server_flags := b.server_flags &&& not64 CAN_MULTI_CONN }
    rw [show (b.server_flags ||| CAN_MULTI_CONN) &&& not64 CAN_MULTI_CONN
        = b.server_flags &&& not64 CAN_MULTI_CONN by
      rw [CAN_MULTI_CONN_eq]; exact clearBit_setBit _ 8 hs (by norm_num)]
  · show { b with server_flags :=
          (b.server_flags &&& not64 CAN_MULTI_CONN) ||| CAN_MULTI_CONN }
        = { b with server_flags := b.server_flags ||| CAN_MULTI_CONN }
    rw [show (b.server_flags &&& not64 CAN_MULTI_CONN) ||| CAN_MULTI_CONN
        = b.server_flags ||| CAN_MULTI_CONN by
      rw [CAN_MULTI_CONN_eq]; exact setBit_clearBit _ 8 hs (by norm_num)]
  · intro v i
    cases v with
    | true =>
      show (b.client_flags ||| NBD_CFLAG_DISCONNECT_ON_CLOSE).testBit i = _
      rw [NBD_CFLAG_DISCONNECT_ON_CLOSE_eq, setBit_testBit]
    | false =>
      show (b.client_flags &&& not64 NBD_CFLAG_DISCONNECT_ON_CLOSE).testBit i = _
      rw [NBD_CFLAG_DISCONNECT_ON_CLOSE_eq,
        clearBit_testBit _ 1 i hc (by norm_num)]
  · intro v
    cases v <;> exact ⟨rfl, rfl, rfl⟩
  · cases hbit : b.client_flags.testBit 1 with
    | false =>
      show { b with client_flags :=
          b.client_flags &&& not64 NBD_CFLAG_DISCONNECT_ON_CLOSE } = b
      exact update_client_flags_eq b _
        (by rw [NBD_CFLAG_DISCONNECT_ON_CLOSE_eq]
            exact clearBit_eq_self _ 1 hc (by norm_num) hbit)
    | true =>
      show { b with client_flags :=
          b.client_flags ||| NBD_CFLAG_DISCONNECT_ON_CLOSE } = b
      exact update_client_flags_eq b _
        (by rw [NBD_CFLAG_DISCONNECT_ON_CLOSE_eq]
            exact setBit_eq_self _ 1 hbit)
  · show { b with client_flags :=
          (b.client_flags ||| NBD_CFLAG_DISCONNECT_ON_CLOSE)
            &&& not64 NBD_CFLAG_DISCONNECT_ON_CLOSE }
        = { b with client_flags :=
          b.client_flags &&& not64 NBD_CFLAG_DISCONNECT_ON_CLOSE }
    rw [show (b.client_flags ||| NBD_CFLAG_DISCONNECT_ON_CLOSE)
          &&& not64 NBD_CFLAG_DISCONNECT_ON_CLOSE
        = b.client_flags &&& not64 NBD_CFLAG_DISCONNECT_ON_CLOSE by
      rw [NBD_CFLAG_DISCONNECT_ON_CLOSE_eq]
      exact clearBit_setBit _ 1 hc (by norm_num)]
  · show { b with client_flags :=
          (b.client_flags &&& not64 NBD_CFLAG_DISCONNECT_ON_CLOSE)
            ||| NBD_CFLAG_DISCONNECT_ON_CLOSE }
        = { b with client_flags :=
          b.client_flags ||| NBD_CFLAG_DISCONNECT_ON_CLOSE }
    rw [show (b.client_flags &&& not64 NBD_CFLAG_DISCONNECT_ON_CLOSE)
          ||| NBD_CFLAG_DISCONNECT_ON_CLOSE
        = b.client_flags ||| NBD_CFLAG_DISCONNECT_ON_CLOSE by
      rw [NBD_CFLAG_DISCONNECT_ON_CLOSE_eq]
      exact setBit_clearBit _ 1 hc (by norm_num)]

/-- Witness for C6 at the freshly constructed builder. -/
theorem claim_c6_toggle_frame_witness :
    (∀ (v : Bool) (i : Nat),
        ((NBDConnect.new.read_only v).server_flags).testBit i
          = if i = 1 then v else NBDConnect.new.server_flags.testBit i) ∧
      (∀ v : Bool,
        (NBDConnect.new.read_only v).size_bytes = NBDConnect.new.size_bytes ∧
        (NBDConnect.new.read_only v).block_size_bytes
          = NBDConnect.new.block_size_bytes ∧
        (NBDConnect.new.read_only v).client_flags
          = NBDConnect.new.client_flags) ∧
      NBDConnect.new.read_only (NBDConnect.new.server_flags.testBit 1)
        = NBDConnect.new ∧
      (NBDConnect.new.read_only true).read_only false
        = NBDConnect.new.read_only false ∧
      (NBDConnect.new.read_only false).read_only true
        = NBDConnect.new.read_only true ∧
      (∀ (v : Bool) (i : Nat),
        ((NBDConnect.new.can_multi_conn v).server_flags).testBit i
          = if i = 8 then v else NBDConnect.new.server_flags.testBit i) ∧
      (∀ v : Bool,
        (NBDConnect.new.can_multi_conn v).size_bytes
          = NBDConnect.new.size_bytes ∧
        (NBDConnect.new.can_multi_conn v).block_size_bytes
          = NBDConnect.new.block_size_bytes ∧
        (NBDConnect.new.can_multi_conn v).client_flags
          = NBDConnect.new.client_flags) ∧
      NBDConnect.new.can_multi_conn (NBDConnect.new.server_flags.testBit 8)
        = NBDConnect.new ∧
      (NBDConnect.new.can_multi_conn true).can_multi_conn false
        = NBDConnect.new.can_multi_conn false ∧
      (NBDConnect.new.can_multi_conn false).can_multi_conn true
        = NBDConnect.new.can_multi_conn true ∧
      (∀ (v : Bool) (i : Nat),
        ((NBDConnect.new.disconnect_on_close v).client_flags).testBit i
          = if i = 1 then v else NBDConnect.new.client_flags.testBit i) ∧
      (∀ v : Bool,
        (NBDConnect.new.disconnect_on_close v).size_bytes
          = NBDConnect.new.size_bytes ∧
        (NBDConnect.new.disconnect_on_close v).block_size_bytes
          = NBDConnect.new.block_size_bytes ∧
        (NBDConnect.new.disconnect_on_close v).server_flags
          = NBDConnect.new.server_flags) ∧
      NBDConnect.new.disconnect_on_close
          (NBDConnect.new.client_flags.testBit 1)
        = NBDConnect.new ∧
      (NBDConnect.new.disconnect_on_close true).disconnect_on_close false
        = NBDConnect.new.disconnect_on_close false ∧
      (NBDConnect.new.disconnect_on_close false).disconnect_on_close true
        = NBDConnect.new.disconnect_on_close true :=
  claim_c6_toggle_frame NBDConnect.new (by refine ⟨?_, ?_, ?_, ?_⟩ <;> decide)

end NbdNetlink
